import Mathlib

/-!
Verification development for the krisp-local-monitoring client SDK.

The development shallowly embeds the three core components of the
repository:

* `StateManager` (src/state-manager.ts): normalization, change
  detection and store-and-maybe-notify for the four server-pushed
  domains (devices, noise cancellation, accent conversion, in-call).
* `ConnectionManager` (src/connection-manager.ts): port probing,
  failure classification, exponential-backoff reconnect scheduling.
* `KrispLocalMonitoringSDK` facade (src/index.ts): the get-state
  request/push race, subscription bookkeeping, and the
  reconnection-recovery sequence.

JavaScript values are modelled with explicit `Option`s: `none` stands
for an absent field (`undefined`), and a nested `Option (Option _)`
distinguishes an absent field from one explicitly set to `null`.
Timestamps are natural numbers; `x || Date.now()` is modelled by
treating `0` as the only falsy number.  Key order inside object
literals is taken to be the canonical field order of the TypeScript
interfaces, which fixes the semantics of the `JSON.stringify`
comparison used for device-state change detection.
-/

/-! ### Error codes (src/errors.ts) -/

inductive ErrorCode
  | KRISP_NOT_REACHABLE
  | CONNECTION_REFUSED
  | CONNECTION_TIMEOUT
  | INVALID_MESSAGE
  | UNKNOWN_ERROR
deriving DecidableEq, Repr

/-- Model of `KrispSDKError` (code + message). -/
structure SdkError where
  code : ErrorCode
  message : String
deriving DecidableEq, Repr

/-! ### Domain state types (src/types/index.ts)

`DeviceState`, `NcState`, `AcState`, `InCallState` are keyed by the
two-valued channel identifier `AudioDeviceType` (microphone = 0,
speaker = 1); we model the pair of channels as two named fields
`mic`/`spk`. -/

/-- `DeviceInfo` from src/types/index.ts: `id` and `name` are required,
the remaining fields are optional. -/
structure DeviceInfo where
  id : String
  name : String
  description : Option String := none
  manufacturer : Option String := none
  modelId : Option String := none
  bus : Option String := none
  formFactor : Option String := none
  isMuted : Option Bool := none
  isDefaultMultimedia : Option Bool := none
  isDefaultCommunication : Option Bool := none
  isKrisp : Option Bool := none
  isHIDHeadset : Option Bool := none
  isDisabled : Option Bool := none
  isAvailable : Option Bool := none
deriving DecidableEq, Repr

/-- `DevicePairState`: `physicalDeviceInfo` is a device object or
`null` (modelled `none`); `updatedAt` a timestamp. -/
structure DevicePairState where
  physicalDeviceInfo : Option DeviceInfo
  updatedAt : Nat
deriving DecidableEq, Repr

/-- Normalized `DeviceState` (channel 0 = microphone, 1 = speaker). -/
structure DeviceState where
  mic : DevicePairState
  spk : DevicePairState
deriving DecidableEq, Repr

/-- Per-channel normalized NC/AC entry. -/
structure NcChannelState where
  enabled : Bool
  updatedAt : Nat
deriving DecidableEq, Repr

/-- Normalized `NcState`. -/
structure NcState where
  mic : NcChannelState
  spk : NcChannelState
deriving DecidableEq, Repr

/-- Normalized `AcState` (the TypeScript interface is field-for-field
identical to `NcState`). -/
structure AcState where
  mic : NcChannelState
  spk : NcChannelState
deriving DecidableEq, Repr

/-- Normalized `InCallState`. -/
structure InCallState where
  inCall : Bool
  updatedAt : Nat
deriving DecidableEq, Repr

/-! ### Raw (wire) payloads

A raw payload as handed to `StateManager.handleMessage` may be
malformed.  `RawMsg α` adds to the domain payload shape `α` the case of
a JS value that is not a truthy object (`null`, `undefined`, booleans,
numbers, strings): exactly the values rejected by the guard
`!state || typeof state !== 'object'`. -/

inductive RawMsg (α : Type)
  | notObject
  | payload (a : α)
deriving DecidableEq, Repr

/-- A raw device channel object.  `physicalDeviceInfo`: outer `none` =
field absent, `some none` = field explicitly `null`, `some (some d)` =
a device-info object.  `updatedAt`: `none` = field absent. -/
structure RawDeviceChannel where
  physicalDeviceInfo : Option (Option DeviceInfo) := none
  updatedAt : Option Nat := none
deriving DecidableEq, Repr

/-- A channel slot of a raw device payload: absent (`undefined`),
explicitly `null`, or an object. -/
inductive RawSlot
  | absent
  | nullSlot
  | objSlot (c : RawDeviceChannel)
deriving DecidableEq, Repr

/-- Raw device payload: the two indexed channel slots. -/
structure RawDevicePayload where
  slot0 : RawSlot
  slot1 : RawSlot
deriving DecidableEq, Repr

/-- A raw NC/AC channel object.  `enabled` is modelled as an absent or
boolean field (`Boolean(x)` coercion then maps absence to `false`). -/
structure RawNcChannel where
  enabled : Option Bool := none
  updatedAt : Option Nat := none
deriving DecidableEq, Repr

/-- Raw NC/AC payload; a `none` channel models an absent (or `null`)
channel entry, on which plain property access throws while optional
chaining yields `undefined`. -/
structure RawNcPayload where
  chan0 : Option RawNcChannel
  chan1 : Option RawNcChannel
deriving DecidableEq, Repr

/-- Raw in-call payload. -/
structure RawInCallPayload where
  inCall : Option Bool := none
  updatedAt : Option Nat := none
deriving DecidableEq, Repr

/-! ### Normalization (src/state-manager.ts, validateAndNormalize*) -/

/-- `x || Date.now()` on a timestamp field: absent or `0` (the only
falsy number in the model) falls back to `now`. -/
def normTs (o : Option Nat) (now : Nat) : Nat :=
  match o with
  | some t => if t = 0 then now else t
  | none => now

/-- `state[i].physicalDeviceInfo || null`: absent and `null` both
normalize to `null`; an object passes through. -/
def normPdi (o : Option (Option DeviceInfo)) : Option DeviceInfo :=
  match o with
  | some (some d) => some d
  | _ => none

/-- `StateManager.validateAndNormalizeDeviceState`.  Rejects non-object
payloads; then requires `typeof state[0]`/`state[1]` to be `'object'`
(an absent slot fails that check; a `null` slot passes it but the
field access that follows throws a TypeError). -/
def validateAndNormalizeDeviceState (raw : RawMsg RawDevicePayload) (now : Nat) :
    Except String DeviceState :=
  match raw with
  | .notObject => .error "Invalid device state: must be an object"
  | .payload p =>
    match p.slot0, p.slot1 with
    | .absent, _ => .error "Invalid device state: missing microphone or speaker state"
    | _, .absent => .error "Invalid device state: missing microphone or speaker state"
    | .nullSlot, _ => .error "TypeError: cannot read properties of null"
    | _, .nullSlot => .error "TypeError: cannot read properties of null"
    | .objSlot c0, .objSlot c1 =>
      .ok ⟨⟨normPdi c0.physicalDeviceInfo, normTs c0.updatedAt now⟩,
           ⟨normPdi c1.physicalDeviceInfo, normTs c1.updatedAt now⟩⟩

/-- `StateManager.validateAndNormalizeNcState`; channel access uses
optional chaining, so missing channels default instead of throwing. -/
def validateAndNormalizeNcState (raw : RawMsg RawNcPayload) (now : Nat) :
    Except String NcState :=
  match raw with
  | .notObject => .error "Invalid NC state: must be an object"
  | .payload p =>
    .ok ⟨⟨(p.chan0.bind (·.enabled)).getD false, normTs (p.chan0.bind (·.updatedAt)) now⟩,
         ⟨(p.chan1.bind (·.enabled)).getD false, normTs (p.chan1.bind (·.updatedAt)) now⟩⟩

/-- `StateManager.validateAndNormalizeAcState` (same body as the NC
one in the source). -/
def validateAndNormalizeAcState (raw : RawMsg RawNcPayload) (now : Nat) :
    Except String AcState :=
  match raw with
  | .notObject => .error "Invalid AC state: must be an object"
  | .payload p =>
    .ok ⟨⟨(p.chan0.bind (·.enabled)).getD false, normTs (p.chan0.bind (·.updatedAt)) now⟩,
         ⟨(p.chan1.bind (·.enabled)).getD false, normTs (p.chan1.bind (·.updatedAt)) now⟩⟩

/-- `StateManager.validateAndNormalizeInCallState`. -/
def validateAndNormalizeInCallState (raw : RawMsg RawInCallPayload) (now : Nat) :
    Except String InCallState :=
  match raw with
  | .notObject => .error "Invalid in-call state: must be an object"
  | .payload p =>
    .ok ⟨p.inCall.getD false, normTs p.updatedAt now⟩

/-! ### Change detection (src/state-manager.ts, has*StateChanged) -/

/-- `JSON.stringify(old[i]) === JSON.stringify(new[i])` for one device
channel, under the canonical key order `physicalDeviceInfo, updatedAt`.
The stored (normalized) channel always serializes both keys, so the
strings agree exactly when the raw slot is an object carrying both
keys with equal values; device-info objects serialize injectively
field by field, so value equality of `DeviceInfo` characterizes string
equality of their serializations. -/
def jsonStringifyEqChan (old : DevicePairState) (slot : RawSlot) : Bool :=
  match slot with
  | .objSlot c =>
    decide (c.physicalDeviceInfo = some old.physicalDeviceInfo) &&
    decide (c.updatedAt = some old.updatedAt)
  | _ => false

/-- `StateManager.hasDeviceStateChanged` applied to the stored
normalized state and the raw incoming payload (the source compares the
previous normalized snapshot against the yet-unnormalized message). -/
def hasDeviceStateChangedRaw (old : DeviceState) (p : RawDevicePayload) : Bool :=
  !jsonStringifyEqChan old.mic p.slot0 || !jsonStringifyEqChan old.spk p.slot1

/-- `StateManager.hasNcStateChanged` against a raw payload.  The
source reads `newState[0].enabled` and (only if the first comparison
is an equality) `newState[1].enabled` without optional chaining, so an
absent channel entry makes the comparison itself throw. -/
def hasNcStateChangedRaw (old : NcState) (p : RawNcPayload) : Except String Bool :=
  match p.chan0 with
  | none => .error "TypeError: cannot read enabled of undefined"
  | some c0 =>
    if c0.enabled ≠ some old.mic.enabled then .ok true
    else
      match p.chan1 with
      | none => .error "TypeError: cannot read enabled of undefined"
      | some c1 => .ok (c1.enabled ≠ some old.spk.enabled)

/-- `StateManager.hasAcStateChanged` against a raw payload (same body
as the NC one in the source). -/
def hasAcStateChangedRaw (old : AcState) (p : RawNcPayload) : Except String Bool :=
  match p.chan0 with
  | none => .error "TypeError: cannot read enabled of undefined"
  | some c0 =>
    if c0.enabled ≠ some old.mic.enabled then .ok true
    else
      match p.chan1 with
      | none => .error "TypeError: cannot read enabled of undefined"
      | some c1 => .ok (c1.enabled ≠ some old.spk.enabled)

/-- `StateManager.hasInCallStateChanged` against a raw payload:
`oldState.inCall !== newState.inCall` (strict, so an absent `inCall`
field compares as different). -/
def hasInCallStateChangedRaw (old : InCallState) (p : RawInCallPayload) : Bool :=
  decide (p.inCall ≠ some old.inCall)

/-! ### Store-and-maybe-notify (src/state-manager.ts, update*State)

The outcome of one `update*State` call: `ok st emitted` means the new
normalized snapshot `st` replaced the cached one and the domain change
event fired exactly when `emitted`; `err` means the call threw (cache
untouched, no change event). -/

inductive UpdOut (σ : Type)
  | ok (st : σ) (emitted : Bool)
  | err (msg : String)
deriving DecidableEq, Repr

/-- Whether an update outcome is a thrown error. -/
def UpdOut.isErr {σ : Type} : UpdOut σ → Bool
  | .ok _ _ => false
  | .err _ => true

/-- `StateManager.updateDeviceState`.  `hasChanged` is computed first
(short-circuiting to `true` when no snapshot is cached), then the
payload is normalized and stored; the change event fires only if
normalization succeeded.  With a cached snapshot, a non-object payload
throws either inside the comparison (indexing `null`/`undefined`) or
inside validation — observables agree, the model uses the validation
message. -/
def updateDeviceState (cached : Option DeviceState) (raw : RawMsg RawDevicePayload)
    (now : Nat) : UpdOut DeviceState :=
  match cached with
  | none =>
    match validateAndNormalizeDeviceState raw now with
    | .ok st => .ok st true
    | .error m => .err m
  | some old =>
    match raw with
    | .notObject => .err "Invalid device state: must be an object"
    | .payload p =>
      let hasChanged := hasDeviceStateChangedRaw old p
      match validateAndNormalizeDeviceState (.payload p) now with
      | .ok st => .ok st hasChanged
      | .error m => .err m

/-- `StateManager.updateNcState`. -/
def updateNcState (cached : Option NcState) (raw : RawMsg RawNcPayload)
    (now : Nat) : UpdOut NcState :=
  match cached with
  | none =>
    match validateAndNormalizeNcState raw now with
    | .ok st => .ok st true
    | .error m => .err m
  | some old =>
    match raw with
    | .notObject => .err "Invalid NC state: must be an object"
    | .payload p =>
      match hasNcStateChangedRaw old p with
      | .error m => .err m
      | .ok hasChanged =>
        match validateAndNormalizeNcState (.payload p) now with
        | .ok st => .ok st hasChanged
        | .error m => .err m

/-- `StateManager.updateAcState`. -/
def updateAcState (cached : Option AcState) (raw : RawMsg RawNcPayload)
    (now : Nat) : UpdOut AcState :=
  match cached with
  | none =>
    match validateAndNormalizeAcState raw now with
    | .ok st => .ok st true
    | .error m => .err m
  | some old =>
    match raw with
    | .notObject => .err "Invalid AC state: must be an object"
    | .payload p =>
      match hasAcStateChangedRaw old p with
      | .error m => .err m
      | .ok hasChanged =>
        match validateAndNormalizeAcState (.payload p) now with
        | .ok st => .ok st hasChanged
        | .error m => .err m

/-- `StateManager.updateInCallState`. -/
def updateInCallState (cached : Option InCallState) (raw : RawMsg RawInCallPayload)
    (now : Nat) : UpdOut InCallState :=
  match cached with
  | none =>
    match validateAndNormalizeInCallState raw now with
    | .ok st => .ok st true
    | .error m => .err m
  | some old =>
    match raw with
    | .notObject => .err "Invalid in-call state: must be an object"
    | .payload p =>
      let hasChanged := hasInCallStateChangedRaw old p
      match validateAndNormalizeInCallState (.payload p) now with
      | .ok st => .ok st hasChanged
      | .error m => .err m

/-! ### Canonical re-injection of normalized snapshots as raw payloads

Replaying a snapshot "identical to the stored one" means sending a raw
payload carrying exactly the stored values, every field present. -/

/-- Raw channel carrying exactly the stored device channel (the
`physicalDeviceInfo` field is present, `null` when the stored one is). -/
def DevicePairState.toRawChan (p : DevicePairState) : RawDeviceChannel :=
  ⟨some p.physicalDeviceInfo, some p.updatedAt⟩

/-- Raw device payload identical to a stored snapshot. -/
def DeviceState.toRaw (s : DeviceState) : RawMsg RawDevicePayload :=
  .payload ⟨.objSlot s.mic.toRawChan, .objSlot s.spk.toRawChan⟩

/-- Raw device payload equal to a stored snapshot in every value field
but with arbitrary `updatedAt` fields (possibly absent). -/
def DeviceState.toRawTs (s : DeviceState) (t0 t1 : Option Nat) : RawMsg RawDevicePayload :=
  .payload ⟨.objSlot ⟨some s.mic.physicalDeviceInfo, t0⟩,
            .objSlot ⟨some s.spk.physicalDeviceInfo, t1⟩⟩

/-- Raw NC payload identical to a stored snapshot. -/
def NcState.toRaw (s : NcState) : RawMsg RawNcPayload :=
  .payload ⟨some ⟨some s.mic.enabled, some s.mic.updatedAt⟩,
            some ⟨some s.spk.enabled, some s.spk.updatedAt⟩⟩

/-- Raw NC payload equal to a stored snapshot in every value field but
with arbitrary `updatedAt` fields (possibly absent). -/
def NcState.toRawTs (s : NcState) (t0 t1 : Option Nat) : RawMsg RawNcPayload :=
  .payload ⟨some ⟨some s.mic.enabled, t0⟩, some ⟨some s.spk.enabled, t1⟩⟩

/-- Raw AC payload identical to a stored snapshot. -/
def AcState.toRaw (s : AcState) : RawMsg RawNcPayload :=
  .payload ⟨some ⟨some s.mic.enabled, some s.mic.updatedAt⟩,
            some ⟨some s.spk.enabled, some s.spk.updatedAt⟩⟩

/-- Raw AC payload equal to a stored snapshot in every value field but
with arbitrary `updatedAt` fields. -/
def AcState.toRawTs (s : AcState) (t0 t1 : Option Nat) : RawMsg RawNcPayload :=
  .payload ⟨some ⟨some s.mic.enabled, t0⟩, some ⟨some s.spk.enabled, t1⟩⟩

/-- Raw in-call payload identical to a stored snapshot. -/
def InCallState.toRaw (s : InCallState) : RawMsg RawInCallPayload :=
  .payload ⟨some s.inCall, some s.updatedAt⟩

/-- Raw in-call payload equal to a stored snapshot in its value field
but with an arbitrary `updatedAt` field. -/
def InCallState.toRawTs (s : InCallState) (t : Option Nat) : RawMsg RawInCallPayload :=
  .payload ⟨some s.inCall, t⟩

/-! ### Well-formedness of normalized snapshots

`Date.now()` is never `0`; normalization with a nonzero `now`
therefore never stores a `0` timestamp, which is what makes replaying
a stored snapshot store it unchanged. -/

/-- All timestamps of a normalized device snapshot are nonzero. -/
def DeviceState.wf (s : DeviceState) : Prop :=
  s.mic.updatedAt ≠ 0 ∧ s.spk.updatedAt ≠ 0

/-- All timestamps of a normalized NC snapshot are nonzero. -/
def NcState.wf (s : NcState) : Prop :=
  s.mic.updatedAt ≠ 0 ∧ s.spk.updatedAt ≠ 0

/-- All timestamps of a normalized AC snapshot are nonzero. -/
def AcState.wf (s : AcState) : Prop :=
  s.mic.updatedAt ≠ 0 ∧ s.spk.updatedAt ≠ 0

/-- The timestamp of a normalized in-call snapshot is nonzero. -/
def InCallState.wf (s : InCallState) : Prop :=
  s.updatedAt ≠ 0

/-! ### Connection manager (src/connection-manager.ts)

The transport is an external collaborator; what it does on a given
port during one probe is summarized by a `PortBehavior`: the socket
either connects, or the bounded connection timeout elapses first, or a
`connect_error` with some message fires. -/

inductive PortBehavior
  | ok
  | timeout
  | connError (m : String)
deriving DecidableEq, Repr

/-- `needle` occurs as a contiguous run at the head of `hay`. -/
def listLeads : List Char → List Char → Bool
  | [], _ => true
  | _ :: _, [] => false
  | a :: as, b :: bs => a == b && listLeads as bs

/-- `hay.includes(needle)` on character lists. -/
def listHasSub (needle : List Char) : List Char → Bool
  | [] => needle.isEmpty
  | c :: rest => listLeads needle (c :: rest) || listHasSub needle rest

/-- `String.prototype.includes`. -/
def strIncludes (hay needle : String) : Bool :=
  listHasSub needle.toList hay.toList

/-- Fixed ordered port list (`DEFAULT_PORTS`). -/
def DEFAULT_PORTS : List Nat := [50190, 50191, 50192]

/-- The options bag of `ConnectionManager` (all fields optional). -/
structure ConnectionOptions where
  connectionTimeout : Option Nat := none
  autoReconnect : Option Bool := none
  maxReconnectAttempts : Option Nat := none
deriving DecidableEq, Repr

/-- `options.connectionTimeout || DEFAULT_CONNECTION_TIMEOUT` (`0` is
falsy, so it also falls back to the 5000 ms default). -/
def effTimeout (opts : ConnectionOptions) : Nat :=
  match opts.connectionTimeout with
  | some t => if t = 0 then 5000 else t
  | none => 5000

/-- The error `ConnectionManager.connectToPort` rejects with for a
failing probe (`none` for a successful one): timeout maps to
`CONNECTION_TIMEOUT`; a `connect_error` whose message mentions an
`xhr poll error` or `websocket error` maps to `CONNECTION_REFUSED`,
anything else to `UNKNOWN_ERROR`. -/
def connectToPortErr (timeoutMs : Nat) : PortBehavior → Option SdkError
  | .ok => none
  | .timeout =>
    some ⟨.CONNECTION_TIMEOUT, "Connection timeout after " ++ toString timeoutMs ++ "ms"⟩
  | .connError m =>
    if strIncludes m "xhr poll error" || strIncludes m "websocket error" then
      some ⟨.CONNECTION_REFUSED, "Connection refused: " ++ m⟩
    else
      some ⟨.UNKNOWN_ERROR, "Connection error: " ++ m⟩

/-- An error captured during the port loop, as seen by the
`lastError instanceof KrispSDKError` test: either a `KrispSDKError`
or some other thrown value. -/
inductive CaughtErr
  | sdk (e : SdkError)
  | generic (m : String)
deriving DecidableEq, Repr

/-- The aggregate-failure classification after all ports failed
(lines building `sdkError` in `connect`): keep a captured
`KrispSDKError`, otherwise fall back to `KRISP_NOT_REACHABLE`. -/
def classifyAggregate : Option CaughtErr → SdkError
  | some (.sdk e) => e
  | _ => ⟨.KRISP_NOT_REACHABLE, "Krisp Desktop is not reachable or API is disabled"⟩

/-- A status update pushed through the `onConnectionChange` callback. -/
structure ConnectionStatus where
  connected : Bool
  connecting : Bool
  port : Option Nat := none
  error : Option SdkError := none
deriving DecidableEq, Repr

/-- The mutable fields of `ConnectionManager`.  `reconnectTimer` holds
the delay of the pending single-shot reconnect timer, if armed. -/
structure CMState where
  connected : Bool
  currentPort : Option Nat
  isConnecting : Bool
  reconnectAttempts : Nat
  currentReconnectDelay : Rat
  reconnectTimer : Option Rat
deriving DecidableEq, Repr

/-- Fresh `ConnectionManager` state (field initializers). -/
def initCMState : CMState :=
  ⟨false, none, false, 0, 1000, none⟩

/-- The terminal status emitted when the maximum-attempts limit has
been reached. -/
def maxReachedStatus (m : Nat) : ConnectionStatus :=
  ⟨false, false, none,
   some ⟨.CONNECTION_REFUSED, "Max reconnect attempts (" ++ toString m ++ ") reached"⟩⟩

/-- `ConnectionManager.scheduleReconnect`: invalidate any pending
timer; stop with a terminal status when the configured limit is
reached; otherwise count the attempt, arm a single-shot timer with the
current delay and multiply the delay by 1.5, capping at 30000 ms. -/
def scheduleReconnect (opts : ConnectionOptions) (st : CMState) :
    CMState × List ConnectionStatus :=
  let st := { st with reconnectTimer := none }
  let arm : CMState :=
    { st with
      reconnectAttempts := st.reconnectAttempts + 1,
      reconnectTimer := some st.currentReconnectDelay,
      currentReconnectDelay := min (st.currentReconnectDelay * (3 / 2 : Rat)) 30000 }
  match opts.maxReconnectAttempts with
  | some m =>
    if st.reconnectAttempts ≥ m then (st, [maxReachedStatus m]) else (arm, [])
  | none => (arm, [])

/-- The port loop of `ConnectionManager.connect`: try each
`(port, behavior)` in order.  Returns the state after the loop, the
winning port if any, and otherwise the error of the last failing
port (the `lastError` variable). -/
def tryPorts (t : Nat) (st : CMState) :
    List (Nat × PortBehavior) → CMState × Option Nat × Option SdkError
  | [] => (st, none, none)
  | (p, b) :: rest =>
    let st := { st with currentPort := some p }
    match connectToPortErr t b with
    | none =>
      ({ st with connected := true, isConnecting := false,
                 reconnectAttempts := 0, currentReconnectDelay := 1000 },
       some p, none)
    | some e =>
      match tryPorts t st rest with
      | (st', none, none) => (st', none, some e)
      | r => r

/-- How one `connect()` call settled: a no-op (already connected or a
probe in flight), a successful connection, a resolution after a failed
cycle with auto-reconnect enabled (the promise resolves, it does not
reject), or a rejection (auto-reconnect disabled). -/
inductive ConnectOutcome
  | noOp
  | connectedOn (port : Nat)
  | resolvedAfterFailure
  | rejected (e : SdkError)
deriving DecidableEq, Repr

/-- `ConnectionManager.connect`.  On a full failed cycle the thrown
aggregate error is re-caught by the surrounding catch block, which
emits the failure status a second time and then either schedules a
reconnect (auto-reconnect enabled, promise resolves) or rethrows to
the caller — never both. -/
def connect (opts : ConnectionOptions) (bs : List PortBehavior) (st : CMState) :
    ConnectOutcome × CMState × List ConnectionStatus :=
  if st.connected then (.noOp, st, [])
  else if st.isConnecting then (.noOp, st, [])
  else
    let st := { st with isConnecting := true }
    let s0 : ConnectionStatus := ⟨false, true, none, none⟩
    match tryPorts (effTimeout opts) st (DEFAULT_PORTS.zip bs) with
    | (st', some p, _) =>
      (.connectedOn p, st', [s0, ⟨true, false, some p, none⟩])
    | (st', none, lastErr) =>
      let sdkError := classifyAggregate (lastErr.map .sdk)
      let st'' := { st' with isConnecting := false }
      let failStatus : ConnectionStatus := ⟨false, false, none, some sdkError⟩
      if opts.autoReconnect ≠ some false then
        let (st3, sts) := scheduleReconnect opts st''
        (.resolvedAfterFailure, st3, [s0, failStatus] ++ sts)
      else
        (.rejected sdkError, st'', [s0, failStatus, failStatus])

/-- `ConnectionManager.disconnect`: cancel timers, close the socket,
reset port/attempt/backoff state, report a plain disconnected status. -/
def disconnect (st : CMState) : CMState × List ConnectionStatus :=
  ({ st with reconnectTimer := none, connected := false, currentPort := none,
             isConnecting := false, reconnectAttempts := 0,
             currentReconnectDelay := 1000 },
   [⟨false, false, none, none⟩])

/-- Modelled from the spec: the reference backoff-delay sequence
"exponential backoff starting at a base delay (1000 ms), multiplied by
a fixed factor (1.5) after each failed full cycle, capped at a maximum
delay (30000 ms)", to be compared with the delays the code's
`scheduleReconnect` actually arms. -/
def specBackoffSeq : Nat → Rat
  | 0 => 1000
  | n + 1 => min (specBackoffSeq n * (3 / 2 : Rat)) 30000

/-- Iterated consecutive `scheduleReconnect` calls from a fresh state
with no maximum-attempts limit and no intervening success or
disconnect. -/
def schedIterNoMax : Nat → CMState
  | 0 => initCMState
  | n + 1 => (scheduleReconnect ⟨none, none, none⟩ (schedIterNoMax n)).1

/-! ### Facade: get-state request/push race (src/index.ts)

Each `getXState()` call, issued while connected, arms a 5000 ms
timeout, registers a one-shot listener on the domain's raw socket
event, and issues the request with an acknowledgement callback.  The
four calls are structurally identical, so the machine is parametric in
the snapshot type `σ`, the raw payload type `ρ`, and the state-cache
effect `upd` of a push (the `StateManager` handler installed at
connect time runs before the one-shot listener). -/

/-- Events a pending get-state call can observe: a domain push, the
request acknowledgement (`success` is `!!response?.success`), or the
timeout firing. -/
inductive ReqEvent (ρ : Type)
  | push (p : ρ)
  | ack (success : Bool)
  | timeoutFire
deriving DecidableEq, Repr

/-- How the pending promise settled: resolved with the raw pushed
payload, resolved with the already-cached snapshot, rejected on a
failed acknowledgement, or rejected with `CONNECTION_TIMEOUT`. -/
inductive SettleKind (σ ρ : Type)
  | viaPush (p : ρ)
  | viaCache (s : σ)
  | ackFailure
  | timedOut
deriving DecidableEq, Repr

/-- State of one pending get-state call plus the domain's cache slot. -/
structure ReqState (σ ρ : Type) where
  cache : Option σ
  listenerOn : Bool
  timerOn : Bool
  settled : Option (SettleKind σ ρ)
deriving DecidableEq, Repr

/-- A promise settles at most once: later settlement attempts are
no-ops. -/
def trySettle {σ ρ : Type} (st : ReqState σ ρ) (k : SettleKind σ ρ) : ReqState σ ρ :=
  if st.settled.isSome then st else { st with settled := some k }

/-- The `cleanup` closure: clear the timeout and remove the one-shot
listener (idempotent). -/
def reqCleanup {σ ρ : Type} (st : ReqState σ ρ) : ReqState σ ρ :=
  { st with listenerOn := false, timerOn := false }

/-- One observed event, as handled by the closures inside
`getDevicesState` (and its three siblings).  A push first runs the
state-cache update, then the one-shot listener (if still attached)
cleans up and resolves with the raw payload.  The acknowledgement
callback rejects on failure, then — without an early return — resolves
with the cached snapshot if one is present.  The timer rejects with
`CONNECTION_TIMEOUT` if it fires before being cleared. -/
def reqStep {σ ρ : Type} (upd : Option σ → ρ → Option σ) (st : ReqState σ ρ) :
    ReqEvent ρ → ReqState σ ρ
  | .push p =>
    let st := { st with cache := upd st.cache p }
    if st.listenerOn then trySettle (reqCleanup st) (.viaPush p) else st
  | .ack success =>
    let st := if success then st else trySettle (reqCleanup st) .ackFailure
    match st.cache with
    | some v => trySettle (reqCleanup st) (.viaCache v)
    | none => st
  | .timeoutFire =>
    if st.timerOn then trySettle (reqCleanup st) .timedOut else st

/-- Run a pending call over a list of observed events. -/
def reqRun {σ ρ : Type} (upd : Option σ → ρ → Option σ) (st : ReqState σ ρ)
    (evs : List (ReqEvent ρ)) : ReqState σ ρ :=
  evs.foldl (reqStep upd) st

/-- The state right after `getXState` set everything up: listener
attached, timer armed, nothing settled, cache as currently held. -/
def initReq {σ ρ : Type} (cache₀ : Option σ) : ReqState σ ρ :=
  ⟨cache₀, true, true, none⟩

/-- The cache effect of a device push as forwarded through
`onMessage → StateManager.handleMessage → updateDeviceState` (a
normalization error leaves the cache untouched). -/
def devCacheUpd (now : Nat) (cache : Option DeviceState) (raw : RawMsg RawDevicePayload) :
    Option DeviceState :=
  match updateDeviceState cache raw now with
  | .ok st _ => some st
  | .err _ => cache

/-! ### Facade: subscriptions (src/index.ts, subscribe) -/

/-- Subscription topics. -/
inductive SubscriptionTopic
  | devices
  | nc
  | ac
  | in_call
deriving DecidableEq, Repr

/-- The server acknowledgement to a `subscribe` request; `subscribed`
is `none` when the server omits the field. -/
structure SubscribeAck where
  success : Bool
  subscribed : Option (List SubscriptionTopic) := none
deriving DecidableEq, Repr

/-- What the transport does with one subscribe request: deliver an
acknowledgement before the 5000 ms bound, or never (timeout). -/
inductive SubOutcome
  | ack (r : SubscribeAck)
  | timeout
deriving DecidableEq, Repr

/-- How the subscribe promise settled. -/
inductive SubResult
  | resolved
  | rejected (e : SdkError)
deriving DecidableEq, Repr

/-- JS `Set.prototype.add` on an insertion-ordered list. -/
def setAdd {α : Type} [DecidableEq α] (l : List α) (a : α) : List α :=
  if a ∈ l then l else l ++ [a]

/-- `KrispLocalMonitoringSDK.subscribe`: throws if not connected;
rejects on timeout or a failed acknowledgement leaving the local set
untouched; on success adds exactly the topics the server confirmed
(`response.subscribed || topics`) filtered to the requested ones. -/
def subscribeModel (connected : Bool) (subs : List SubscriptionTopic)
    (topics : List SubscriptionTopic) (o : SubOutcome) :
    SubResult × List SubscriptionTopic :=
  if ¬connected then
    (.rejected ⟨.CONNECTION_REFUSED, "Not connected to server"⟩, subs)
  else
    match o with
    | .timeout => (.rejected ⟨.CONNECTION_TIMEOUT, "Request timeout"⟩, subs)
    | .ack r =>
      if r.success then
        let confirmedTopics := r.subscribed.getD topics
        let subs' := confirmedTopics.foldl
          (fun acc topic => if topic ∈ topics then setAdd acc topic else acc) subs
        (.resolved, subs')
      else
        (.rejected ⟨.UNKNOWN_ERROR, "Failed to subscribe"⟩, subs)

/-! ### Facade: reconnection recovery (src/index.ts) -/

/-- The SDK options bag (extends the connection options). -/
structure KrispSDKOptions where
  connectionTimeout : Option Nat := none
  autoReconnect : Option Bool := none
  maxReconnectAttempts : Option Nat := none
  autoSubscribe : Option Bool := none
  autoSubscribeTopics : Option (List SubscriptionTopic) := none
deriving DecidableEq, Repr

/-- Default auto-subscribe topic list. -/
def defaultTopics : List SubscriptionTopic :=
  [.devices, .nc, .ac, .in_call]

/-- The reconnection-tracking fields of the facade. -/
structure FacadeConnState where
  wasConnected : Bool
  isReconnecting : Bool
deriving DecidableEq, Repr

/-- The `ConnectionState` shape delivered to connection-change
handlers. -/
structure ConnState where
  connected : Bool
  connecting : Bool
  error : Option SdkError := none
deriving DecidableEq, Repr

/-- `KrispLocalMonitoringSDK.emitConnectionChange`: computes
`justReconnected` from the status and flags, updates
`wasConnected` / `isReconnecting`, and reports whether the recovery
sequence (`handleReconnection`) is kicked off.  The emitted
`ConnState` is derived from the transport status alone. -/
def emitConnectionChange (st : FacadeConnState) (status : ConnectionStatus) :
    FacadeConnState × Bool × ConnState :=
  let connState : ConnState := ⟨status.connected, status.connecting, status.error⟩
  let justReconnected := !st.wasConnected && status.connected && st.isReconnecting
  if status.connected && !st.wasConnected then
    (⟨true, st.wasConnected⟩, justReconnected, connState)
  else if !status.connected && st.wasConnected then
    (⟨false, true⟩, false, connState)
  else
    (st, false, connState)

/-- What a run of the recovery sequence did: which get-state requests
it re-issued and, if it re-subscribed, to which topic list. -/
structure RecoveryActions where
  fetchedStates : List String
  resubscribedTo : Option (List SubscriptionTopic)
deriving DecidableEq, Repr

/-- `KrispLocalMonitoringSDK.handleReconnection`: after polling until
the transport settles (summarized by `connectedAfterPoll`), re-fetch
the four states (best effort) and, unless auto-subscribe is disabled,
re-subscribe to the previously held topic set, falling back to the
configured auto-subscribe topics when that set is empty.  Failures are
caught inside, so the function only ever reports actions. -/
def handleReconnection (opts : KrispSDKOptions)
    (subscribedTopics : List SubscriptionTopic) (connectedAfterPoll : Bool) :
    RecoveryActions :=
  if !connectedAfterPoll then ⟨[], none⟩
  else
    ⟨["get_device_state", "get_nc_state", "get_ac_state", "get_in_call_state"],
     if opts.autoSubscribe ≠ some false then
       some (if subscribedTopics.length > 0 then subscribedTopics
             else opts.autoSubscribeTopics.getD defaultTopics)
     else none⟩

/-- The facade's message callback around
`StateManager.handleMessage` (src/index.ts constructor): a thrown
normalization error is converted into a generic `INVALID_MESSAGE`
diagnostic, the cache slot stays as it was, and no per-domain change
event fires; it is never surfaced as a rejected request. -/
def facadeDispatch {σ : Type} (cached : Option σ) (r : UpdOut σ) :
    Option σ × Bool × Option SdkError :=
  match r with
  | .ok st emitted => (some st, emitted, none)
  | .err m =>
    (cached, false,
     some ⟨.INVALID_MESSAGE, "Failed to process message: Error: " ++ m⟩)

/-! ## Helper lemmas -/

/-- `x || null` re-applied to an explicitly present field is the
identity. -/
theorem normPdi_some (o : Option DeviceInfo) : normPdi (some o) = o := by
  cases o <;> rfl

/-- `x || Date.now()` keeps a nonzero explicit timestamp. -/
theorem normTs_some_ne_zero {t : Nat} (now : Nat) (h : t ≠ 0) :
    normTs (some t) now = t := by
  simp [normTs, h]

/-- `x || Date.now()` with a nonzero clock never yields `0`. -/
theorem normTs_ne_zero (o : Option Nat) {now : Nat} (hnow : now ≠ 0) :
    normTs o now ≠ 0 := by
  cases o with
  | none => exact hnow
  | some t =>
    by_cases ht : t = 0 <;> simp [normTs, ht, hnow]

/-- Normalization with a nonzero clock produces nonzero device
timestamps. -/
theorem validate_device_wf {raw : RawMsg RawDevicePayload} {now : Nat} {st : DeviceState}
    (hnow : now ≠ 0) (h : validateAndNormalizeDeviceState raw now = .ok st) :
    st.wf := by
  cases raw with
  | notObject => simp [validateAndNormalizeDeviceState] at h
  | payload p =>
    cases h0 : p.slot0 <;> cases h1 : p.slot1 <;>
      simp [validateAndNormalizeDeviceState, h0, h1] at h
    subst h
    exact ⟨normTs_ne_zero _ hnow, normTs_ne_zero _ hnow⟩

/-! ## Claims -/

/-- C1: For each of the four domains, processing a raw payload with no
prior snapshot cached stores the normalized snapshot and emits exactly
one change notification; processing a second payload identical to the
stored snapshot stores it again and emits none; and every successful
update stores the normalized payload whether or not it notified. -/
theorem stateCache_first_receipt_emits_and_replay_is_silent :
    ((∀ (raw : RawMsg RawDevicePayload) (now : Nat) (st : DeviceState) (e : Bool),
        updateDeviceState none raw now = .ok st e → e = true) ∧
     (∀ (cached : Option DeviceState) (raw : RawMsg RawDevicePayload) (now : Nat)
        (st : DeviceState) (e : Bool),
        updateDeviceState cached raw now = .ok st e →
        validateAndNormalizeDeviceState raw now = .ok st) ∧
     (∀ (s : DeviceState) (now : Nat), s.wf →
        updateDeviceState (some s) s.toRaw now = .ok s false)) ∧
    ((∀ (raw : RawMsg RawNcPayload) (now : Nat) (st : NcState) (e : Bool),
        updateNcState none raw now = .ok st e → e = true) ∧
     (∀ (cached : Option NcState) (raw : RawMsg RawNcPayload) (now : Nat)
        (st : NcState) (e : Bool),
        updateNcState cached raw now = .ok st e →
        validateAndNormalizeNcState raw now = .ok st) ∧
     (∀ (s : NcState) (now : Nat), s.wf →
        updateNcState (some s) s.toRaw now = .ok s false)) ∧
    ((∀ (raw : RawMsg RawNcPayload) (now : Nat) (st : AcState) (e : Bool),
        updateAcState none raw now = .ok st e → e = true) ∧
     (∀ (cached : Option AcState) (raw : RawMsg RawNcPayload) (now : Nat)
        (st : AcState) (e : Bool),
        updateAcState cached raw now = .ok st e →
        validateAndNormalizeAcState raw now = .ok st) ∧
     (∀ (s : AcState) (now : Nat), s.wf →
        updateAcState (some s) s.toRaw now = .ok s false)) ∧
    ((∀ (raw : RawMsg RawInCallPayload) (now : Nat) (st : InCallState) (e : Bool),
        updateInCallState none raw now = .ok st e → e = true) ∧
     (∀ (cached : Option InCallState) (raw : RawMsg RawInCallPayload) (now : Nat)
        (st : InCallState) (e : Bool),
        updateInCallState cached raw now = .ok st e →
        validateAndNormalizeInCallState raw now = .ok st) ∧
     (∀ (s : InCallState) (now : Nat), s.wf →
        updateInCallState (some s) s.toRaw now = .ok s false)) := by
  refine ⟨⟨?_, ?_, ?_⟩, ⟨?_, ?_, ?_⟩, ⟨?_, ?_, ?_⟩, ⟨?_, ?_, ?_⟩⟩
  · intro raw now st e h
    cases hv : validateAndNormalizeDeviceState raw now <;>
      simp_all [updateDeviceState]
  · intro cached raw now st e h
    cases cached with
    | none =>
      cases hv : validateAndNormalizeDeviceState raw now <;>
        simp_all [updateDeviceState]
    | some old =>
      cases raw with
      | notObject => simp [updateDeviceState] at h
      | payload p =>
        cases hv : validateAndNormalizeDeviceState (.payload p) now <;>
          simp_all [updateDeviceState]
  · intro s now hwf
    obtain ⟨h0, h1⟩ := hwf
    simp [updateDeviceState, DeviceState.toRaw, DevicePairState.toRawChan,
          validateAndNormalizeDeviceState, hasDeviceStateChangedRaw,
          jsonStringifyEqChan, normPdi_some, normTs, h0, h1]
  · intro raw now st e h
    cases hv : validateAndNormalizeNcState raw now <;>
      simp_all [updateNcState]
  · intro cached raw now st e h
    cases cached with
    | none =>
      cases hv : validateAndNormalizeNcState raw now <;>
        simp_all [updateNcState]
    | some old =>
      cases raw with
      | notObject => simp [updateNcState] at h
      | payload p =>
        cases hc : hasNcStateChangedRaw old p <;>
          cases hv : validateAndNormalizeNcState (.payload p) now <;>
            simp_all [updateNcState]
  · intro s now hwf
    obtain ⟨h0, h1⟩ := hwf
    simp [updateNcState, NcState.toRaw, hasNcStateChangedRaw,
          validateAndNormalizeNcState, normTs, h0, h1]
  · intro raw now st e h
    cases hv : validateAndNormalizeAcState raw now <;>
      simp_all [updateAcState]
  · intro cached raw now st e h
    cases cached with
    | none =>
      cases hv : validateAndNormalizeAcState raw now <;>
        simp_all [updateAcState]
    | some old =>
      cases raw with
      | notObject => simp [updateAcState] at h
      | payload p =>
        cases hc : hasAcStateChangedRaw old p <;>
          cases hv : validateAndNormalizeAcState (.payload p) now <;>
            simp_all [updateAcState]
  · intro s now hwf
    obtain ⟨h0, h1⟩ := hwf
    simp [updateAcState, AcState.toRaw, hasAcStateChangedRaw,
          validateAndNormalizeAcState, normTs, h0, h1]
  · intro raw now st e h
    cases hv : validateAndNormalizeInCallState raw now <;>
      simp_all [updateInCallState]
  · intro cached raw now st e h
    cases cached with
    | none =>
      cases hv : validateAndNormalizeInCallState raw now <;>
        simp_all [updateInCallState]
    | some old =>
      cases raw with
      | notObject => simp [updateInCallState] at h
      | payload p =>
        cases hv : validateAndNormalizeInCallState (.payload p) now <;>
          simp_all [updateInCallState]
  · intro s now hwf
    have h0 : s.updatedAt ≠ 0 := hwf
    simp [updateInCallState, InCallState.toRaw, hasInCallStateChangedRaw,
          validateAndNormalizeInCallState, normTs, h0]

/-- Witness for C1: a concrete device snapshot replayed verbatim is
stored again and emits nothing. -/
theorem stateCache_first_receipt_emits_and_replay_is_silent_witness :
    DeviceState.wf ⟨⟨none, 3⟩, ⟨none, 4⟩⟩ ∧
    updateDeviceState (some ⟨⟨none, 3⟩, ⟨none, 4⟩⟩)
      (DeviceState.toRaw ⟨⟨none, 3⟩, ⟨none, 4⟩⟩) 7 = .ok ⟨⟨none, 3⟩, ⟨none, 4⟩⟩ false :=
  ⟨⟨by decide, by decide⟩,
   stateCache_first_receipt_emits_and_replay_is_silent.1.2.2
     ⟨⟨none, 3⟩, ⟨none, 4⟩⟩ 7 ⟨by decide, by decide⟩⟩

/-- C2 counterexample: a device payload equal to the cached snapshot
in every value field and differing only in the `updatedAt` fields
(timestamps 1 → 2) is stored and DOES emit a change notification,
because `hasDeviceStateChanged` compares the JSON serialization of the
whole channel objects, timestamps included. -/
theorem device_timestamp_only_diff_emits :
    updateDeviceState (some ⟨⟨none, 1⟩, ⟨none, 1⟩⟩)
      (DeviceState.toRawTs ⟨⟨none, 1⟩, ⟨none, 1⟩⟩ (some 2) (some 2)) 9 =
      .ok ⟨⟨none, 2⟩, ⟨none, 2⟩⟩ true := by decide

/-- C2 (amended): a payload identical to the cached snapshot in every
value field and differing only in `updatedAt` is stored without a
notification for NC, AC and in-call (their comparisons are
value-only); for devices the stringified comparison includes
`updatedAt`, so a timestamp-only difference does emit. -/
theorem timestamp_only_diff_is_value_only_except_devices :
    (∀ (s : NcState) (t0 t1 : Option Nat) (now : Nat),
        updateNcState (some s) (s.toRawTs t0 t1) now =
          .ok ⟨⟨s.mic.enabled, normTs t0 now⟩, ⟨s.spk.enabled, normTs t1 now⟩⟩ false) ∧
    (∀ (s : AcState) (t0 t1 : Option Nat) (now : Nat),
        updateAcState (some s) (s.toRawTs t0 t1) now =
          .ok ⟨⟨s.mic.enabled, normTs t0 now⟩, ⟨s.spk.enabled, normTs t1 now⟩⟩ false) ∧
    (∀ (s : InCallState) (t : Option Nat) (now : Nat),
        updateInCallState (some s) (s.toRawTs t) now =
          .ok ⟨s.inCall, normTs t now⟩ false) ∧
    (∀ (s : DeviceState) (t0 t1 : Option Nat) (now : Nat),
        t0 ≠ some s.mic.updatedAt ∨ t1 ≠ some s.spk.updatedAt →
        updateDeviceState (some s) (s.toRawTs t0 t1) now =
          .ok ⟨⟨s.mic.physicalDeviceInfo, normTs t0 now⟩,
               ⟨s.spk.physicalDeviceInfo, normTs t1 now⟩⟩ true) := by
  refine ⟨?_, ?_, ?_, ?_⟩
  · intro s t0 t1 now
    simp [updateNcState, NcState.toRawTs, hasNcStateChangedRaw,
          validateAndNormalizeNcState]
  · intro s t0 t1 now
    simp [updateAcState, AcState.toRawTs, hasAcStateChangedRaw,
          validateAndNormalizeAcState]
  · intro s t now
    simp [updateInCallState, InCallState.toRawTs, hasInCallStateChangedRaw,
          validateAndNormalizeInCallState]
  · intro s t0 t1 now h
    have hch : hasDeviceStateChangedRaw s
        ⟨.objSlot ⟨some s.mic.physicalDeviceInfo, t0⟩,
         .objSlot ⟨some s.spk.physicalDeviceInfo, t1⟩⟩ = true := by
      rcases h with h | h <;>
        simp [hasDeviceStateChangedRaw, jsonStringifyEqChan, h]
    simp [updateDeviceState, DeviceState.toRawTs, validateAndNormalizeDeviceState,
          hch, normPdi_some]

/-- Witness for the amended C2: concrete NC and device instances. -/
theorem timestamp_only_diff_is_value_only_except_devices_witness :
    (updateNcState (some ⟨⟨true, 1⟩, ⟨false, 1⟩⟩)
       (NcState.toRawTs ⟨⟨true, 1⟩, ⟨false, 1⟩⟩ (some 2) (some 3)) 9 =
       .ok ⟨⟨true, 2⟩, ⟨false, 3⟩⟩ false) ∧
    ((some 2 : Option Nat) ≠ some 1 ∨ (some 2 : Option Nat) ≠ some 1) ∧
    updateDeviceState (some ⟨⟨none, 1⟩, ⟨none, 1⟩⟩)
      (DeviceState.toRawTs ⟨⟨none, 1⟩, ⟨none, 1⟩⟩ (some 2) (some 2)) 9 =
      .ok ⟨⟨none, 2⟩, ⟨none, 2⟩⟩ true := by
  refine ⟨?_, Or.inl (by decide), ?_⟩
  · have := timestamp_only_diff_is_value_only_except_devices.1
      ⟨⟨true, 1⟩, ⟨false, 1⟩⟩ (some 2) (some 3) 9
    simpa [normTs] using this
  · have := timestamp_only_diff_is_value_only_except_devices.2.2.2
      ⟨⟨none, 1⟩, ⟨none, 1⟩⟩ (some 2) (some 2) 9 (Or.inl (by decide))
    simpa [normTs] using this

/-- A raw device channel slot passes the `typeof state[i] === 'object'`
check with a usable object. -/
def RawSlot.isObj : RawSlot → Bool
  | .objSlot _ => true
  | _ => false

/-- C9 counterexample: the empty object `\x7b\x7d` IS an object, yet
`updateDeviceState` raises a validation error on it (missing channel
entries), refuting "raises if and only if the payload is not an
object". -/
theorem device_object_payload_still_raises :
    updateDeviceState none (.payload ⟨.absent, .absent⟩) 1 =
      .err "Invalid device state: missing microphone or speaker state" := by
  rfl

/-- C9 (amended): a non-object payload always raises; an object
payload never raises for in-call, raises for devices exactly when a
channel slot is not an object, and raises for NC/AC exactly when a
prior snapshot is cached and the unguarded change comparison reads an
absent channel entry (channel 0 absent, or channel 0's `enabled` equal
to the cached one and channel 1 absent).  Whenever an update raises,
the facade leaves the cached snapshot unchanged, fires no per-domain
change event, and surfaces only a generic `INVALID_MESSAGE`
processing-error diagnostic. -/
theorem normalization_raise_characterization :
    ((∀ (cached : Option DeviceState) (now : Nat),
        (updateDeviceState cached .notObject now).isErr = true) ∧
     (∀ (cached : Option DeviceState) (p : RawDevicePayload) (now : Nat),
        (updateDeviceState cached (.payload p) now).isErr =
          (!p.slot0.isObj || !p.slot1.isObj))) ∧
    ((∀ (cached : Option NcState) (now : Nat),
        (updateNcState cached .notObject now).isErr = true) ∧
     (∀ (p : RawNcPayload) (now : Nat),
        (updateNcState none (.payload p) now).isErr = false) ∧
     (∀ (old : NcState) (p : RawNcPayload) (now : Nat),
        (updateNcState (some old) (.payload p) now).isErr =
          (match p.chan0 with
           | none => true
           | some c0 => (c0.enabled == some old.mic.enabled) && p.chan1.isNone))) ∧
    ((∀ (cached : Option AcState) (now : Nat),
        (updateAcState cached .notObject now).isErr = true) ∧
     (∀ (p : RawNcPayload) (now : Nat),
        (updateAcState none (.payload p) now).isErr = false) ∧
     (∀ (old : AcState) (p : RawNcPayload) (now : Nat),
        (updateAcState (some old) (.payload p) now).isErr =
          (match p.chan0 with
           | none => true
           | some c0 => (c0.enabled == some old.mic.enabled) && p.chan1.isNone))) ∧
    ((∀ (cached : Option InCallState) (now : Nat),
        (updateInCallState cached .notObject now).isErr = true) ∧
     (∀ (cached : Option InCallState) (p : RawInCallPayload) (now : Nat),
        (updateInCallState cached (.payload p) now).isErr = false)) ∧
    (∀ (σ : Type) (cached : Option σ) (m : String),
        facadeDispatch cached (.err m) =
          (cached, false,
           some ⟨.INVALID_MESSAGE, "Failed to process message: Error: " ++ m⟩)) := by
  refine ⟨⟨?_, ?_⟩, ⟨?_, ?_, ?_⟩, ⟨?_, ?_, ?_⟩, ⟨?_, ?_⟩, ?_⟩
  · intro cached now
    cases cached <;> simp [updateDeviceState, validateAndNormalizeDeviceState, UpdOut.isErr]
  · intro cached p now
    cases cached <;> cases h0 : p.slot0 <;> cases h1 : p.slot1 <;>
      simp [updateDeviceState, validateAndNormalizeDeviceState, RawSlot.isObj,
            UpdOut.isErr, h0, h1]
  · intro cached now
    cases cached <;> simp [updateNcState, validateAndNormalizeNcState, UpdOut.isErr]
  · intro p now
    simp [updateNcState, validateAndNormalizeNcState, UpdOut.isErr]
  · intro old p now
    cases h0 : p.chan0 with
    | none => simp [updateNcState, hasNcStateChangedRaw, h0, UpdOut.isErr]
    | some c0 =>
      by_cases he : c0.enabled = some old.mic.enabled
      · cases h1 : p.chan1 <;>
          simp [updateNcState, hasNcStateChangedRaw, validateAndNormalizeNcState,
                h0, h1, he, UpdOut.isErr]
      · simp [updateNcState, hasNcStateChangedRaw, validateAndNormalizeNcState,
              h0, he, UpdOut.isErr]
  · intro cached now
    cases cached <;> simp [updateAcState, validateAndNormalizeAcState, UpdOut.isErr]
  · intro p now
    simp [updateAcState, validateAndNormalizeAcState, UpdOut.isErr]
  · intro old p now
    cases h0 : p.chan0 with
    | none => simp [updateAcState, hasAcStateChangedRaw, h0, UpdOut.isErr]
    | some c0 =>
      by_cases he : c0.enabled = some old.mic.enabled
      · cases h1 : p.chan1 <;>
          simp [updateAcState, hasAcStateChangedRaw, validateAndNormalizeAcState,
                h0, h1, he, UpdOut.isErr]
      · simp [updateAcState, hasAcStateChangedRaw, validateAndNormalizeAcState,
              h0, he, UpdOut.isErr]
  · intro cached now
    cases cached <;> simp [updateInCallState, validateAndNormalizeInCallState, UpdOut.isErr]
  · intro cached p now
    cases cached <;> simp [updateInCallState, validateAndNormalizeInCallState, UpdOut.isErr]
  · intro σ cached m
    rfl

/-- Witness for the amended C9: concrete NC instance where the cached
comparison reads an absent channel and raises, and the facade turns it
into a diagnostic leaving the cache alone. -/
theorem normalization_raise_characterization_witness :
    (updateNcState (some ⟨⟨true, 1⟩, ⟨true, 1⟩⟩)
        (.payload ⟨some ⟨some true, none⟩, none⟩) 5).isErr = true ∧
    facadeDispatch (some (⟨⟨true, 1⟩, ⟨true, 1⟩⟩ : NcState))
        (.err "TypeError: cannot read enabled of undefined") =
      (some ⟨⟨true, 1⟩, ⟨true, 1⟩⟩, false,
       some ⟨.INVALID_MESSAGE,
             "Failed to process message: Error: TypeError: cannot read enabled of undefined"⟩) := by
  constructor
  · have := normalization_raise_characterization.2.1.2.2
      ⟨⟨true, 1⟩, ⟨true, 1⟩⟩ ⟨some ⟨some true, none⟩, none⟩ 5
    simpa using this
  · exact normalization_raise_characterization.2.2.2.2 NcState
      (some ⟨⟨true, 1⟩, ⟨true, 1⟩⟩) "TypeError: cannot read enabled of undefined"

/-- With three failing probes the port loop ends with the last port
recorded and the last port's error as `lastError`. -/
theorem tryPorts_all_fail (t : Nat) (st : CMState) {b1 b2 b3 : PortBehavior}
    {e1 e2 e3 : SdkError} (h1 : connectToPortErr t b1 = some e1)
    (h2 : connectToPortErr t b2 = some e2) (h3 : connectToPortErr t b3 = some e3) :
    tryPorts t st (DEFAULT_PORTS.zip [b1, b2, b3]) =
      ({ st with currentPort := some 50192 }, none, some e3) := by
  simp [DEFAULT_PORTS, List.zip, List.zipWith, tryPorts, h1, h2, h3]

/-- A port loop that connects has reset the reconnection counters. -/
theorem tryPorts_success_resets (t : Nat) :
    ∀ (l : List (Nat × PortBehavior)) (st st' : CMState) (p : Nat) (er : Option SdkError),
      tryPorts t st l = (st', some p, er) →
      st'.connected = true ∧ st'.reconnectAttempts = 0 ∧
      st'.currentReconnectDelay = 1000 := by
  intro l
  induction l with
  | nil =>
    intro st st' p er h
    simp [tryPorts] at h
  | cons hd tl ih =>
    intro st st' p er h
    obtain ⟨q, b⟩ := hd
    rw [tryPorts] at h
    cases hb : connectToPortErr t b with
    | none =>
      rw [hb] at h
      simp at h
      obtain ⟨hst, -, -⟩ := h
      rw [← hst]
      exact ⟨rfl, rfl, rfl⟩
    | some e =>
      rw [hb] at h
      rcases hrec : tryPorts t { st with currentPort := some q } tl with ⟨st'', o, er'⟩
      rw [hrec] at h
      cases o with
      | some q' =>
        simp at h
        obtain ⟨hst, hq, -⟩ := h
        have := ih _ _ _ _ hrec
        rw [← hst]
        exact this
      | none =>
        cases er' with
        | none => simp at h
        | some e' => simp at h

/-- A `connect()` call that resolved with a connection has reset the
attempt counter and backoff delay to their initial values. -/
theorem connect_success_resets (opts : ConnectionOptions) (bs : List PortBehavior)
    (st : CMState) (p : Nat) (st' : CMState) (sts : List ConnectionStatus)
    (h : connect opts bs st = (.connectedOn p, st', sts)) :
    st'.reconnectAttempts = 0 ∧ st'.currentReconnectDelay = 1000 := by
  obtain ⟨c, cp, ic, ra, rd, rt⟩ := st
  cases c with
  | true => simp [connect] at h
  | false =>
    cases ic with
    | true => simp [connect] at h
    | false =>
      rcases htp : tryPorts (effTimeout opts) ⟨false, cp, true, ra, rd, rt⟩
        (DEFAULT_PORTS.zip bs) with ⟨stF, o, er⟩
      cases o with
      | some q =>
        have hres := tryPorts_success_resets (effTimeout opts) _ _ _ _ _ htp
        simp [connect, htp] at h
        obtain ⟨-, hst, -⟩ := h
        rw [← hst]
        exact ⟨hres.2.1, hres.2.2⟩
      | none =>
        by_cases ha : opts.autoReconnect = some false <;>
          simp [connect, htp, ha] at h

/-- C3 counterexample: with auto-reconnect enabled but the configured
max-attempts limit already reached (limit 0 here), a fully exhausted
`connect()` cycle does not reject AND arms no reconnection attempt —
refuting the claim's "a reconnection attempt is scheduled" conclusion
for the auto-reconnect-enabled branch. -/
theorem connect_enabled_at_max_limit_schedules_nothing :
    (connect ⟨none, none, some 0⟩ [.timeout, .timeout, .timeout] initCMState).1 =
      .resolvedAfterFailure ∧
    (connect ⟨none, none, some 0⟩ [.timeout, .timeout, .timeout]
        initCMState).2.1.reconnectTimer = none := by
  decide

/-- C3 (amended): when a full `connect()` cycle exhausts all three
ports, the aggregate failure is the captured specific error
(`KRISP_NOT_REACHABLE` only when none was captured); with
auto-reconnect disabled the call rejects with it and arms nothing;
with auto-reconnect enabled it never rejects and a reconnection
attempt is scheduled with the current backoff delay — unless the
max-attempts limit has already been reached, in which case the
terminal max-attempts status is reported and nothing is armed.  Never
rejecting and scheduling in the same cycle. -/
theorem connect_exhaustion_rejects_xor_schedules :
    ∀ (opts : ConnectionOptions) (st : CMState) (b1 b2 b3 : PortBehavior)
      (e1 e2 e3 : SdkError),
      st.connected = false → st.isConnecting = false →
      connectToPortErr (effTimeout opts) b1 = some e1 →
      connectToPortErr (effTimeout opts) b2 = some e2 →
      connectToPortErr (effTimeout opts) b3 = some e3 →
      (classifyAggregate (some (.sdk e3)) = e3 ∧
       classifyAggregate none =
         ⟨.KRISP_NOT_REACHABLE, "Krisp Desktop is not reachable or API is disabled"⟩) ∧
      (opts.autoReconnect = some false →
        (connect opts [b1, b2, b3] st).1 = .rejected e3 ∧
        (connect opts [b1, b2, b3] st).2.1.reconnectTimer = st.reconnectTimer) ∧
      (opts.autoReconnect ≠ some false →
        (connect opts [b1, b2, b3] st).1 = .resolvedAfterFailure ∧
        (∀ e, (connect opts [b1, b2, b3] st).1 ≠ .rejected e) ∧
        ((opts.maxReconnectAttempts = none ∨
            (∃ m, opts.maxReconnectAttempts = some m ∧ st.reconnectAttempts < m)) →
          (connect opts [b1, b2, b3] st).2.1.reconnectTimer =
            some st.currentReconnectDelay) ∧
        (∀ m, opts.maxReconnectAttempts = some m → m ≤ st.reconnectAttempts →
          (connect opts [b1, b2, b3] st).2.1.reconnectTimer = none ∧
          (connect opts [b1, b2, b3] st).2.2 =
            [⟨false, true, none, none⟩, ⟨false, false, none, some e3⟩,
             maxReachedStatus m])) := by
  intro opts st b1 b2 b3 e1 e2 e3 hc hi h1 h2 h3
  obtain ⟨c, cp, ic, ra, rd, rt⟩ := st
  have hc' : c = false := hc
  have hi' : ic = false := hi
  subst hc'
  subst hi'
  have htp := tryPorts_all_fail (effTimeout opts) ⟨false, cp, true, ra, rd, rt⟩ h1 h2 h3
  refine ⟨⟨rfl, rfl⟩, ?_, ?_⟩
  · intro ha
    simp [connect, htp, ha, classifyAggregate]
  · intro ha
    refine ⟨?_, ?_, ?_, ?_⟩
    · simp [connect, htp, ha]
    · simp [connect, htp, ha]
    · rintro (hm | ⟨m, hm, hlt⟩)
      · simp [connect, htp, ha, scheduleReconnect, hm]
      · have hnge : ¬ ra ≥ m := Nat.not_le.mpr hlt
        simp [connect, htp, ha, scheduleReconnect, hm, hnge]
    · intro m hm hle
      have hge : ra ≥ m := hle
      simp [connect, htp, ha, scheduleReconnect, hm, hge, classifyAggregate,
            maxReachedStatus]

/-- Witness for C3: with auto-reconnect disabled and all three probes
timing out, `connect()` rejects with the captured timeout error; with
auto-reconnect enabled and no limit it arms the 1000 ms base delay. -/
theorem connect_exhaustion_rejects_xor_schedules_witness :
    initCMState.connected = false ∧
    connectToPortErr (effTimeout ⟨none, some false, none⟩) .timeout =
      some ⟨.CONNECTION_TIMEOUT, "Connection timeout after 5000ms"⟩ ∧
    (connect ⟨none, some false, none⟩ [.timeout, .timeout, .timeout] initCMState).1 =
      .rejected ⟨.CONNECTION_TIMEOUT, "Connection timeout after 5000ms"⟩ ∧
    (connect ⟨none, none, none⟩ [.timeout, .timeout, .timeout]
        initCMState).2.1.reconnectTimer = some 1000 :=
  ⟨rfl, by decide,
   ((connect_exhaustion_rejects_xor_schedules ⟨none, some false, none⟩ initCMState
      .timeout .timeout .timeout
      ⟨.CONNECTION_TIMEOUT, "Connection timeout after 5000ms"⟩
      ⟨.CONNECTION_TIMEOUT, "Connection timeout after 5000ms"⟩
      ⟨.CONNECTION_TIMEOUT, "Connection timeout after 5000ms"⟩
      rfl rfl (by decide) (by decide) (by decide)).2.1 rfl).1,
   ((connect_exhaustion_rejects_xor_schedules ⟨none, none, none⟩ initCMState
      .timeout .timeout .timeout
      ⟨.CONNECTION_TIMEOUT, "Connection timeout after 5000ms"⟩
      ⟨.CONNECTION_TIMEOUT, "Connection timeout after 5000ms"⟩
      ⟨.CONNECTION_TIMEOUT, "Connection timeout after 5000ms"⟩
      rfl rfl (by decide) (by decide) (by decide)).2.2 (by decide)).2.2.1
      (Or.inl rfl)⟩

/-- The backoff delay held after `n` consecutive schedules equals the
spec's reference sequence. -/
theorem schedIterNoMax_delay (n : Nat) :
    (schedIterNoMax n).currentReconnectDelay = specBackoffSeq n := by
  induction n with
  | zero => rfl
  | succ k ih =>
    simp [schedIterNoMax, scheduleReconnect, specBackoffSeq, ih]

/-- C4: the delays armed by consecutive scheduled reconnection
attempts are exactly 1000 ms, then previous × 1.5 capped at 30000 ms
(the spec's 1000, 1500, 2250, …, 30000, 30000, … sequence), and any
successful `connect()` resets the attempt counter and delay to 0 and
1000 ms. -/
theorem reconnect_backoff_sequence :
    specBackoffSeq 0 = 1000 ∧
    (∀ n, specBackoffSeq (n + 1) = min (specBackoffSeq n * (3 / 2 : Rat)) 30000) ∧
    (∀ n, specBackoffSeq n ≤ 30000) ∧
    (∀ n, (schedIterNoMax (n + 1)).reconnectTimer = some (specBackoffSeq n)) ∧
    (∀ n, (schedIterNoMax n).reconnectAttempts = n) ∧
    (∀ (opts : ConnectionOptions) (bs : List PortBehavior) (st : CMState)
       (p : Nat) (st' : CMState) (sts : List ConnectionStatus),
        connect opts bs st = (.connectedOn p, st', sts) →
        st'.reconnectAttempts = 0 ∧ st'.currentReconnectDelay = 1000) := by
  refine ⟨rfl, fun n => rfl, ?_, ?_, ?_, connect_success_resets⟩
  · intro n
    induction n with
    | zero => norm_num [specBackoffSeq]
    | succ k ih => exact min_le_right _ _
  · intro n
    simp [schedIterNoMax, scheduleReconnect, schedIterNoMax_delay n]
  · intro n
    induction n with
    | zero => rfl
    | succ k ih => simp [schedIterNoMax, scheduleReconnect, ih]

/-- Witness for C4: the third consecutive schedule arms 2250 ms, and a
concrete successful `connect()` resets the counters. -/
theorem reconnect_backoff_sequence_witness :
    (schedIterNoMax 3).reconnectTimer = some ((2250 : Rat)) ∧
    (connect ⟨none, none, none⟩ [.ok, .ok, .ok] initCMState).2.1.reconnectAttempts = 0 ∧
    (connect ⟨none, none, none⟩ [.ok, .ok, .ok] initCMState).2.1.currentReconnectDelay
      = 1000 := by
  refine ⟨(reconnect_backoff_sequence.2.2.2.1 2).trans ?_, ?_⟩
  · have : specBackoffSeq 2 = 2250 := by
      show min (min ((1000 : Rat) * (3 / 2)) 30000 * (3 / 2)) 30000 = 2250
      rw [min_def, if_pos (by norm_num), min_def, if_pos (by norm_num)]
      norm_num
    rw [this]
  · exact reconnect_backoff_sequence.2.2.2.2.2 ⟨none, none, none⟩ [.ok, .ok, .ok]
      initCMState 50190
      (connect ⟨none, none, none⟩ [.ok, .ok, .ok] initCMState).2.1
      (connect ⟨none, none, none⟩ [.ok, .ok, .ok] initCMState).2.2 rfl

/-- C5 counterexample: with `maxReconnectAttempts = 1`, after the
limit is reached a NEW manual `connect()` whose cycle fails again does
NOT reset the attempt counter (it stays 1) and arms no reconnect
timer, so scheduling does not resume — the counter is only reset by a
successful connection or `disconnect()`. -/
theorem connect_after_max_does_not_reset_or_resume :
    (connect ⟨none, none, some 1⟩ [.timeout, .timeout, .timeout]
        initCMState).2.1.reconnectAttempts = 1 ∧
    (connect ⟨none, none, some 1⟩ [.timeout, .timeout, .timeout]
        initCMState).2.1.reconnectTimer = some 1000 ∧
    (connect ⟨none, none, some 1⟩ [.timeout, .timeout, .timeout]
        { (connect ⟨none, none, some 1⟩ [.timeout, .timeout, .timeout]
            initCMState).2.1 with reconnectTimer := none }).2.1.reconnectAttempts = 1 ∧
    (connect ⟨none, none, some 1⟩ [.timeout, .timeout, .timeout]
        { (connect ⟨none, none, some 1⟩ [.timeout, .timeout, .timeout]
            initCMState).2.1 with reconnectTimer := none }).2.1.reconnectTimer = none ∧
    (connect ⟨none, none, some 1⟩ [.timeout, .timeout, .timeout]
        (connect ⟨none, none, some 1⟩ [.timeout, .timeout, .timeout]
          { (connect ⟨none, none, some 1⟩ [.timeout, .timeout, .timeout]
              initCMState).2.1 with reconnectTimer := none }).2.1).2.1.reconnectAttempts
      = 1 ∧
    (connect ⟨none, none, some 1⟩ [.timeout, .timeout, .timeout]
        (connect ⟨none, none, some 1⟩ [.timeout, .timeout, .timeout]
          { (connect ⟨none, none, some 1⟩ [.timeout, .timeout, .timeout]
              initCMState).2.1 with reconnectTimer := none }).2.1).2.1.reconnectTimer
      = none := by
  decide

/-- C5 (amended): when the attempt count has reached a configured
maximum, `scheduleReconnect` reports the terminal max-attempts status,
arms no timer and leaves the counter unchanged; the counters are reset
to 0 / 1000 ms by a successful connection or by `disconnect()` — a
failing manual `connect()` does not reset them and arms nothing. -/
theorem max_attempts_terminal_and_counter_reset :
    (∀ (opts : ConnectionOptions) (st : CMState) (m : Nat),
        opts.maxReconnectAttempts = some m → st.reconnectAttempts ≥ m →
        scheduleReconnect opts st =
          ({ st with reconnectTimer := none }, [maxReachedStatus m])) ∧
    (∀ (opts : ConnectionOptions) (bs : List PortBehavior) (st : CMState)
       (p : Nat) (st' : CMState) (sts : List ConnectionStatus),
        connect opts bs st = (.connectedOn p, st', sts) →
        st'.reconnectAttempts = 0 ∧ st'.currentReconnectDelay = 1000) ∧
    (∀ st, (disconnect st).1.reconnectAttempts = 0 ∧
           (disconnect st).1.currentReconnectDelay = 1000 ∧
           (disconnect st).1.reconnectTimer = none) ∧
    (∀ (opts : ConnectionOptions) (st : CMState) (m : Nat) (b1 b2 b3 : PortBehavior)
       (e1 e2 e3 : SdkError),
        opts.maxReconnectAttempts = some m → st.reconnectAttempts ≥ m →
        st.connected = false → st.isConnecting = false →
        opts.autoReconnect ≠ some false →
        connectToPortErr (effTimeout opts) b1 = some e1 →
        connectToPortErr (effTimeout opts) b2 = some e2 →
        connectToPortErr (effTimeout opts) b3 = some e3 →
        (connect opts [b1, b2, b3] st).2.1.reconnectAttempts = st.reconnectAttempts ∧
        (connect opts [b1, b2, b3] st).2.1.reconnectTimer = none) := by
  refine ⟨?_, connect_success_resets, ?_, ?_⟩
  · intro opts st m hm hge
    simp [scheduleReconnect, hm, hge]
  · intro st
    exact ⟨rfl, rfl, rfl⟩
  · intro opts st m b1 b2 b3 e1 e2 e3 hm hge hc hi ha h1 h2 h3
    obtain ⟨c, cp, ic, ra, rd, rt⟩ := st
    have hc' : c = false := hc
    have hi' : ic = false := hi
    subst hc'
    subst hi'
    have htp := tryPorts_all_fail (effTimeout opts) ⟨false, cp, true, ra, rd, rt⟩ h1 h2 h3
    have hge' : ra ≥ m := hge
    simp [connect, htp, ha, scheduleReconnect, hm, hge']

/-- Witness for the amended C5: the concrete max-reached schedule. -/
theorem max_attempts_terminal_and_counter_reset_witness :
    scheduleReconnect ⟨none, none, some 1⟩
        ⟨false, none, false, 1, 1500, some 1000⟩ =
      (⟨false, none, false, 1, 1500, none⟩, [maxReachedStatus 1]) :=
  max_attempts_terminal_and_counter_reset.1 ⟨none, none, some 1⟩
    ⟨false, none, false, 1, 1500, some 1000⟩ 1 rfl (by decide)

/-- Invariant of a pending get-state call: the promise is settled
exactly when the one-shot listener has been removed, and the listener
and the timeout timer are always attached/removed together. -/
def ReqInv {σ ρ : Type} (st : ReqState σ ρ) : Prop :=
  st.settled.isSome = !st.listenerOn ∧ st.listenerOn = st.timerOn

/-- A settled call never changes its settlement. -/
theorem reqStep_settled_mono {σ ρ : Type} (upd : Option σ → ρ → Option σ)
    (st : ReqState σ ρ) (e : ReqEvent ρ) (k : SettleKind σ ρ)
    (h : st.settled = some k) : (reqStep upd st e).settled = some k := by
  cases e with
  | push p =>
    by_cases hl : st.listenerOn <;>
      simp [reqStep, trySettle, reqCleanup, hl, h]
  | ack success =>
    cases success <;>
      cases hc : st.cache <;>
        simp [reqStep, trySettle, reqCleanup, h, hc]
  | timeoutFire =>
    by_cases ht : st.timerOn <;>
      simp [reqStep, trySettle, reqCleanup, ht, h]

/-- Settlement persists over any further events. -/
theorem reqRun_settled_mono {σ ρ : Type} (upd : Option σ → ρ → Option σ) :
    ∀ (evs : List (ReqEvent ρ)) (st : ReqState σ ρ) (k : SettleKind σ ρ),
      st.settled = some k → (reqRun upd st evs).settled = some k := by
  intro evs
  induction evs with
  | nil => intro st k h; exact h
  | cons e rest ih =>
    intro st k h
    exact ih _ _ (reqStep_settled_mono upd st e k h)

/-- Each event handler preserves the teardown invariant. -/
theorem reqStep_inv {σ ρ : Type} (upd : Option σ → ρ → Option σ)
    (st : ReqState σ ρ) (e : ReqEvent ρ) (h : ReqInv st) :
    ReqInv (reqStep upd st e) := by
  obtain ⟨cache, l, t, sd⟩ := st
  obtain ⟨h1, h2⟩ := h
  simp only at h1 h2
  subst h2
  cases e with
  | push p =>
    cases l <;> simp_all [reqStep, trySettle, reqCleanup, ReqInv]
  | ack success =>
    cases l with
    | true =>
      have hsd : sd = none := by
        cases sd with
        | none => rfl
        | some k => simp at h1
      subst hsd
      cases success <;> cases cache <;>
        simp [reqStep, trySettle, reqCleanup, ReqInv]
    | false =>
      cases success <;> cases cache <;>
        simp_all [reqStep, trySettle, reqCleanup, ReqInv]
  | timeoutFire =>
    cases l <;> simp_all [reqStep, trySettle, reqCleanup, ReqInv]

/-- The teardown invariant holds after any run from the initial
pending-call state. -/
theorem reqRun_inv {σ ρ : Type} (upd : Option σ → ρ → Option σ) :
    ∀ (evs : List (ReqEvent ρ)) (st : ReqState σ ρ),
      ReqInv st → ReqInv (reqRun upd st evs) := by
  intro evs
  induction evs with
  | nil => intro st h; exact h
  | cons e rest ih => intro st h; exact ih _ (reqStep_inv upd st e h)

/-- Successful acknowledgements with an empty cache leave a pending
call untouched. -/
theorem reqRun_ackTrue_none {σ ρ : Type} (upd : Option σ → ρ → Option σ) :
    ∀ (evs : List (ReqEvent ρ)), (∀ e ∈ evs, e = .ack true) →
      reqRun upd (initReq none) evs = (initReq none : ReqState σ ρ) := by
  intro evs
  induction evs with
  | nil => intro _; rfl
  | cons e rest ih =>
    intro h
    have he : e = .ack true := h e (List.mem_cons_self _ _)
    subst he
    have hstep : reqStep upd (initReq (none : Option σ)) (.ack true) = initReq none := rfl
    show reqRun upd (reqStep upd (initReq none) (.ack true)) rest = initReq none
    rw [hstep]
    exact ih (fun e' he' => h e' (List.mem_cons_of_mem _ he'))

/-- C6: for any get-state call (all four are instances of this
parametric pending-call machine), running any sequence of pushes and
acknowledgements followed by the backstop timeout settles the promise
exactly once — at any intermediate point a settled call has its
listener and timer torn down, and the settlement value never changes —
and a call whose acknowledgements are all successful while no snapshot
is cached resolves only when a push arrives: with no push it rejects
with the timeout, and a push after a successful acknowledgement
resolves with that push. -/
theorem getState_exactly_one_settlement :
    ∀ (σ ρ : Type) (upd : Option σ → ρ → Option σ) (c₀ : Option σ)
      (evs : List (ReqEvent ρ)),
      ((reqRun upd (initReq c₀) (evs ++ [.timeoutFire])).settled.isSome = true ∧
       (reqRun upd (initReq c₀) (evs ++ [.timeoutFire])).listenerOn = false ∧
       (reqRun upd (initReq c₀) (evs ++ [.timeoutFire])).timerOn = false) ∧
      (∀ pre suf, evs ++ [.timeoutFire] = pre ++ suf →
        ((reqRun upd (initReq c₀) pre).settled.isSome = true →
           (reqRun upd (initReq c₀) pre).listenerOn = false ∧
           (reqRun upd (initReq c₀) pre).timerOn = false) ∧
        (∀ k, (reqRun upd (initReq c₀) pre).settled = some k →
           (reqRun upd (initReq c₀) (evs ++ [.timeoutFire])).settled = some k)) ∧
      (c₀ = none → (∀ e ∈ evs, e = .ack true) →
        (reqRun upd (initReq c₀) (evs ++ [.timeoutFire])).settled = some .timedOut) ∧
      (∀ p, (reqRun upd (initReq (none : Option σ)) [.ack true, .push p]).settled =
          some (.viaPush p)) := by
  intro σ ρ upd c₀ evs
  have hinv0 : ReqInv (initReq c₀ : ReqState σ ρ) := ⟨rfl, rfl⟩
  refine ⟨?_, ?_, ?_, ?_⟩
  · rw [reqRun, List.foldl_append]
    have hmid := reqRun_inv upd evs _ hinv0
    simp only [reqRun] at hmid
    rcases hm : List.foldl (reqStep upd) (initReq c₀) evs with ⟨cache, l, t, sd⟩
    rw [hm] at hmid
    obtain ⟨h1, h2⟩ := hmid
    simp only at h1 h2
    subst h2
    cases l with
    | true =>
      have hsd : sd = none := by
        cases sd with
        | none => rfl
        | some k => simp at h1
      subst hsd
      simp [reqStep, trySettle, reqCleanup]
    | false =>
      cases sd with
      | none => simp at h1
      | some k => simp [reqStep, trySettle, reqCleanup]
  · intro pre suf hsplit
    constructor
    · intro hset
      have hmid := reqRun_inv upd pre _ hinv0
      obtain ⟨h1, h2⟩ := hmid
      rw [hset] at h1
      constructor
      · cases hl : (reqRun upd (initReq c₀) pre).listenerOn
        · rfl
        · rw [hl] at h1; simp at h1
      · rw [← h2]
        cases hl : (reqRun upd (initReq c₀) pre).listenerOn
        · rfl
        · rw [hl] at h1; simp at h1
    · intro k hk
      rw [hsplit, reqRun, List.foldl_append]
      exact reqRun_settled_mono upd suf _ k hk
  · intro hc hall
    subst hc
    rw [reqRun, List.foldl_append]
    have := reqRun_ackTrue_none upd evs hall
    rw [reqRun] at this
    rw [this]
    rfl
  · intro p
    rfl

/-- Witness for C6: instantiated to the device domain — a successful
acknowledgement with an empty cache followed by no push times out,
while a later push resolves with that push. -/
theorem getState_exactly_one_settlement_witness :
    (reqRun (devCacheUpd 5) (initReq none)
        ([ReqEvent.ack true] ++ [.timeoutFire])).settled =
      some (SettleKind.timedOut (σ := DeviceState) (ρ := RawMsg RawDevicePayload)) ∧
    (reqRun (devCacheUpd 5) (initReq (none : Option DeviceState))
        [.ack true,
         .push (.payload ⟨.objSlot ⟨none, some 7⟩, .objSlot ⟨none, some 7⟩⟩)]).settled =
      some (.viaPush (.payload ⟨.objSlot ⟨none, some 7⟩, .objSlot ⟨none, some 7⟩⟩)) :=
  have h := getState_exactly_one_settlement DeviceState (RawMsg RawDevicePayload)
      (devCacheUpd 5) none [.ack true]
  ⟨h.2.2.1 rfl (fun e he => by simpa using he), h.2.2.2 _⟩

/-- C10: a push settles the pending call by resolving with the RAW
payload exactly as delivered on the socket event, while the cache
(updated first by the state manager's handler) stores the normalized
snapshot; concretely, a device payload with an absent
`physicalDeviceInfo` field resolves as-is, although the stored
normalized snapshot re-serializes with the field present (`null`),
i.e. the resolved value lacks the normalization defaults. -/
theorem push_resolves_with_raw_payload :
    (∀ (st : ReqState DeviceState (RawMsg RawDevicePayload))
       (p : RawMsg RawDevicePayload) (now : Nat),
       st.listenerOn = true → st.settled = none →
       reqStep (devCacheUpd now) st (.push p) =
         ⟨devCacheUpd now st.cache p, false, false, some (.viaPush p)⟩) ∧
    (reqRun (devCacheUpd 5) (initReq none)
        [.push (.payload ⟨.objSlot ⟨none, some 7⟩, .objSlot ⟨none, some 7⟩⟩)]).settled =
      some (.viaPush (.payload ⟨.objSlot ⟨none, some 7⟩, .objSlot ⟨none, some 7⟩⟩)) ∧
    (reqRun (devCacheUpd 5) (initReq none)
        [.push (.payload ⟨.objSlot ⟨none, some 7⟩, .objSlot ⟨none, some 7⟩⟩)]).cache =
      some ⟨⟨none, 7⟩, ⟨none, 7⟩⟩ ∧
    DeviceState.toRaw ⟨⟨none, 7⟩, ⟨none, 7⟩⟩ ≠
      .payload ⟨.objSlot ⟨none, some 7⟩, .objSlot ⟨none, some 7⟩⟩ := by
  refine ⟨?_, by decide, by decide, by decide⟩
  intro st p now hl hs
  obtain ⟨cache, l, t, sd⟩ := st
  simp only at hl hs
  subst hl
  subst hs
  simp [reqStep, trySettle, reqCleanup]

/-- Witness for C10: the settlement law applied at a concrete pending
state and payload. -/
theorem push_resolves_with_raw_payload_witness :
    reqStep (devCacheUpd 3) (⟨none, true, true, none⟩ :
        ReqState DeviceState (RawMsg RawDevicePayload)) (.push .notObject) =
      ⟨none, false, false, some (.viaPush .notObject)⟩ :=
  (push_resolves_with_raw_payload.1 ⟨none, true, true, none⟩ .notObject 3 rfl rfl).trans
    (by decide)

/-- Membership in the JS-set add. -/
theorem mem_setAdd {α : Type} [DecidableEq α] (l : List α) (a x : α) :
    x ∈ setAdd l a ↔ x ∈ l ∨ x = a := by
  unfold setAdd
  split
  next h =>
    constructor
    · exact Or.inl
    · rintro (hx | rfl)
      · exact hx
      · exact h
  next h => simp

/-- Membership after folding the confirmed-topic filter over the local
subscription set. -/
theorem mem_foldl_subscribe {α : Type} [DecidableEq α] (topics : List α) :
    ∀ (conf subs : List α) (x : α),
      x ∈ conf.foldl
          (fun acc topic => if topic ∈ topics then setAdd acc topic else acc) subs ↔
        x ∈ subs ∨ (x ∈ conf ∧ x ∈ topics) := by
  intro conf
  induction conf with
  | nil => simp
  | cons c cs ih =>
    intro subs x
    simp only [List.foldl_cons]
    by_cases hc : c ∈ topics
    · rw [if_pos hc, ih, mem_setAdd]
      constructor
      · rintro ((hs | rfl) | ⟨hcs, ht⟩)
        · exact Or.inl hs
        · exact Or.inr ⟨List.mem_cons_self _ _, hc⟩
        · exact Or.inr ⟨List.mem_cons_of_mem _ hcs, ht⟩
      · rintro (hs | ⟨hmem, ht⟩)
        · exact Or.inl (Or.inl hs)
        · rcases List.mem_cons.mp hmem with rfl | hcs
          · exact Or.inl (Or.inr rfl)
          · exact Or.inr ⟨hcs, ht⟩
    · rw [if_neg hc, ih]
      constructor
      · rintro (hs | ⟨hcs, ht⟩)
        · exact Or.inl hs
        · exact Or.inr ⟨List.mem_cons_of_mem _ hcs, ht⟩
      · rintro (hs | ⟨hmem, ht⟩)
        · exact Or.inl hs
        · rcases List.mem_cons.mp hmem with rfl | hcs
          · exact absurd ht hc
          · exact Or.inr ⟨hcs, ht⟩

/-- C7: on a successful acknowledgement the local subscription set
gains exactly the topics both requested and server-confirmed (the
acknowledgement's `subscribed` list, or all requested topics when the
server omits it); on a failed acknowledgement or a timeout the call
rejects and the set is unchanged (as it is when not connected). -/
theorem subscribe_confirmed_topics_only :
    ∀ (subs topics : List SubscriptionTopic) (o : SubOutcome),
      (∀ r, o = .ack r → r.success = true →
        (subscribeModel true subs topics o).1 = .resolved ∧
        ∀ x, x ∈ (subscribeModel true subs topics o).2 ↔
          x ∈ subs ∨ (x ∈ r.subscribed.getD topics ∧ x ∈ topics)) ∧
      (∀ r, o = .ack r → r.success = false →
        (subscribeModel true subs topics o).1 =
          .rejected ⟨.UNKNOWN_ERROR, "Failed to subscribe"⟩ ∧
        (subscribeModel true subs topics o).2 = subs) ∧
      (o = .timeout →
        (subscribeModel true subs topics o).1 =
          .rejected ⟨.CONNECTION_TIMEOUT, "Request timeout"⟩ ∧
        (subscribeModel true subs topics o).2 = subs) ∧
      ((subscribeModel false subs topics o).1 =
          .rejected ⟨.CONNECTION_REFUSED, "Not connected to server"⟩ ∧
        (subscribeModel false subs topics o).2 = subs) := by
  intro subs topics o
  refine ⟨?_, ?_, ?_, ?_⟩
  · rintro r rfl hs
    constructor
    · simp [subscribeModel, hs]
    · intro x
      simp only [subscribeModel, hs]
      simpa using mem_foldl_subscribe topics (r.subscribed.getD topics) subs x
  · rintro r rfl hs
    simp [subscribeModel, hs]
  · rintro rfl
    simp [subscribeModel]
  · simp [subscribeModel]

/-- Witness for C7: the spec's example — requesting devices and AC but
the server confirming only devices leaves AC out of the local set. -/
theorem subscribe_confirmed_topics_only_witness :
    (subscribeModel true [] [.devices, .ac] (.ack ⟨true, some [.devices]⟩)).1 =
      .resolved ∧
    (SubscriptionTopic.ac ∈
        (subscribeModel true [] [.devices, .ac] (.ack ⟨true, some [.devices]⟩)).2 ↔
      SubscriptionTopic.ac ∈ ([] : List SubscriptionTopic) ∨
        (SubscriptionTopic.ac ∈ [SubscriptionTopic.devices] ∧
         SubscriptionTopic.ac ∈ [SubscriptionTopic.devices, SubscriptionTopic.ac])) ∧
    (subscribeModel true [] [.devices, .ac] (.ack ⟨true, some [.devices]⟩)).2 =
      [.devices] :=
  have h := (subscribe_confirmed_topics_only [] [.devices, .ac]
      (.ack ⟨true, some [.devices]⟩)).1 ⟨true, some [.devices]⟩ rfl rfl
  ⟨h.1, by simpa using h.2 .ac, by decide⟩

/-- C8 counterexample: with auto-subscribe disabled in the options,
the recovery sequence after a reconnection re-issues the four
get-state requests but performs NO re-subscription at all — it does
not fall back to the configured auto-subscribe topics. -/
theorem recovery_skips_resubscribe_when_autosubscribe_disabled :
    handleReconnection ⟨none, none, none, some false, none⟩ [] true =
      ⟨["get_device_state", "get_nc_state", "get_ac_state", "get_in_call_state"],
       none⟩ := by
  rfl

/-- C8 (amended): a connected→disconnected transition arms the
reconnecting flag without running recovery; the next
disconnected→connected transition triggers the recovery sequence,
whose emitted connection state is derived from the transport status
alone; the recovery re-issues all four get-state requests and — when
auto-subscribe is enabled (the default) — re-subscribes to the topic
set held before disconnection, falling back to the configured
auto-subscribe topics when that set is empty; with auto-subscribe
disabled it skips re-subscription. -/
theorem reconnection_recovery_sequence :
    ∀ (st : FacadeConnState) (s1 s2 : ConnectionStatus)
      (opts : KrispSDKOptions) (subs : List SubscriptionTopic),
      st.wasConnected = true → s1.connected = false → s2.connected = true →
      (emitConnectionChange st s1).2.1 = false ∧
      (emitConnectionChange st s1).1.wasConnected = false ∧
      (emitConnectionChange st s1).1.isReconnecting = true ∧
      (emitConnectionChange (emitConnectionChange st s1).1 s2).2.1 = true ∧
      (emitConnectionChange (emitConnectionChange st s1).1 s2).1.wasConnected = true ∧
      (emitConnectionChange (emitConnectionChange st s1).1 s2).2.2 =
        ⟨s2.connected, s2.connecting, s2.error⟩ ∧
      (handleReconnection opts subs true).fetchedStates =
        ["get_device_state", "get_nc_state", "get_ac_state", "get_in_call_state"] ∧
      (opts.autoSubscribe ≠ some false →
        (handleReconnection opts subs true).resubscribedTo =
          some (if subs.length > 0 then subs
                else opts.autoSubscribeTopics.getD defaultTopics)) ∧
      (opts.autoSubscribe = some false →
        (handleReconnection opts subs true).resubscribedTo = none) := by
  intro st s1 s2 opts subs hw h1 h2
  obtain ⟨w, r⟩ := st
  have hw' : w = true := hw
  subst hw'
  obtain ⟨c1, g1, p1, e1⟩ := s1
  have h1' : c1 = false := h1
  subst h1'
  obtain ⟨c2, g2, p2, e2⟩ := s2
  have h2' : c2 = true := h2
  subst h2'
  refine ⟨?_, ?_, ?_, ?_, ?_, ?_, ?_, ?_, ?_⟩
  · simp [emitConnectionChange]
  · simp [emitConnectionChange]
  · simp [emitConnectionChange]
  · simp [emitConnectionChange]
  · simp [emitConnectionChange]
  · simp [emitConnectionChange]
  · simp [handleReconnection]
  · intro ha
    simp [handleReconnection, ha]
  · intro ha
    simp [handleReconnection, ha]

/-- Witness for the amended C8: a concrete
connected→disconnected→connected cycle with default options, empty
previous topic set. -/
theorem reconnection_recovery_sequence_witness :
    (emitConnectionChange
        (emitConnectionChange ⟨true, false⟩ ⟨false, false, none, none⟩).1
        ⟨true, false, some 50190, none⟩).2.1 = true ∧
    (handleReconnection ⟨none, none, none, none, none⟩ [] true).resubscribedTo =
      some (if ([] : List SubscriptionTopic).length > 0 then []
            else (none : Option (List SubscriptionTopic)).getD defaultTopics) :=
  have h := reconnection_recovery_sequence ⟨true, false⟩ ⟨false, false, none, none⟩
    ⟨true, false, some 50190, none⟩ ⟨none, none, none, none, none⟩ [] rfl rfl rfl
  ⟨h.2.2.2.1, h.2.2.2.2.2.2.2.1 (by simp)⟩
